import Mathlib

/-!
Verification development for the quiz-solving agent repository.

The embedding covers:
* `src/agent.py` — the LangGraph control loop: `agent_node`, `route`,
  the graph wiring and `run_agent`;
* `src/direct_solver.py` — the deterministic fallback solver:
  `solve_challenge`, `submit_answer` and the `main` loop;
* `src/tools/transcription.py` — the `transcribe_audio` tool.

Python string primitives (`split`, `strip`, `replace`, `in`, `endswith`,
`os.path.basename`) are re-implemented below by structural recursion on
character lists, so that every definition evaluates by kernel reduction.
External effects (HTTP, the Gemini API, the filesystem) are passed in as
explicit oracle functions.
-/

/-- Whitespace test used by the embedding of Python's `str.strip`. -/
def isWS (c : Char) : Bool :=
  c = ' ' || c = '\t' || c = '\n' || c = '\r'

/-- Embedding of Python's `str.strip()`: drop whitespace from both ends. -/
def pyStrip (s : String) : String :=
  String.mk (((s.toList.dropWhile isWS).reverse.dropWhile isWS).reverse)

/-- Does the first list start with the second one?  A structurally
recursive front-segment test used by all the Python string primitives below. -/
def listStarts : List Char → List Char → Bool
  | _, [] => true
  | [], _ :: _ => false
  | c :: cs, d :: ds => c == d && listStarts cs ds

/-- Embedding of Python's `str.startswith` (used only in statements about
error strings). -/
def pyStartsWith (s t : String) : Bool :=
  listStarts s.toList t.toList

/-- Embedding of Python's `str.endswith`. -/
def pyEndsWith (s t : String) : Bool :=
  listStarts s.toList.reverse t.toList.reverse

/-- Does `needle` occur as a contiguous run inside `hay`?  Embeds Python's
substring test `needle in hay`. -/
def listContainsSub (needle : List Char) : List Char → Bool
  | [] => needle.isEmpty
  | c :: rest => listStarts (c :: rest) needle || listContainsSub needle rest

/-- Embedding of Python's substring test `needle in hay` on strings. -/
def containsSub (needle hay : String) : Bool :=
  listContainsSub needle.toList hay.toList

/-- Worker for `pySplit`.  The fuel argument starts at `length + 1`; since the
separator is nonempty in every use, each step consumes at least one character,
so the fuel is never exhausted on the inputs that occur. -/
def splitSubAux (sep : List Char) : Nat → List Char → List Char → List String
  | 0, l, acc => [String.mk (acc.reverse ++ l)]
  | _ + 1, [], acc => [String.mk acc.reverse]
  | n + 1, c :: rest, acc =>
    if listStarts (c :: rest) sep then
      String.mk acc.reverse :: splitSubAux sep n ((c :: rest).drop sep.length) []
    else
      splitSubAux sep n rest (c :: acc)

/-- Embedding of Python's `str.split(sep)` for a nonempty separator. -/
def pySplit (s sep : String) : List String :=
  splitSubAux sep.toList (s.toList.length + 1) s.toList []

/-- Worker for `pyReplace`, fueled the same way as `splitSubAux`. -/
def replaceSubAux (pat rep : List Char) : Nat → List Char → List Char
  | 0, l => l
  | _ + 1, [] => []
  | n + 1, c :: rest =>
    if listStarts (c :: rest) pat then
      rep ++ replaceSubAux pat rep n ((c :: rest).drop pat.length)
    else
      c :: replaceSubAux pat rep n rest

/-- Embedding of Python's `str.replace(pat, rep)` for a nonempty pattern. -/
def pyReplace (s pat rep : String) : String :=
  String.mk (replaceSubAux pat.toList rep.toList (s.toList.length + 1) s.toList)

/-!
Data model of the agent loop (src/agent.py).

A `Message` abstracts the LangChain message objects and plain dicts that
`route` supports: the router only ever reads `tool_calls` and `content`.
A `tool_calls` attribute that is `None` in Python and an empty list are both
falsy, so both are represented by the empty list.
-/

/-- A tool-invocation request produced by the Decision Step
(name of the capability plus keyword arguments). -/
structure ToolCall where
  name : String
  args : List (String × String)
deriving DecidableEq

/-- One structured content segment: a dict whose `"text"` key may be absent,
as read by `content[0].get("text")` in `route`. -/
structure Segment where
  text : Option String
deriving DecidableEq

/-- The shapes of a message's `content` that `route` distinguishes with
`isinstance`: a plain string, a list of structured segments, or anything
else (e.g. Python `None`), which falls through both marker checks. -/
inductive MsgContent
  | str (s : String)
  | segs (l : List Segment)
  | null
deriving DecidableEq

/-- A conversation message as seen by the router. -/
structure Message where
  tool_calls : List ToolCall
  content : MsgContent
deriving DecidableEq

/-- Python exceptions that the embedded code can raise. -/
inductive PyExn
  | indexError
  | attributeError
  | typeError
deriving DecidableEq

/-- The three-way transition returned by `route`: the `"tools"` node, the
graph's END sentinel (`terminal`), or back to the `"agent"` node. -/
inductive Transition
  | tools
  | terminal
  | agent
deriving DecidableEq

/-- Embedding of `route` from src/agent.py.  It reads the last message of
`state["messages"]` (an `IndexError` on an empty list), routes to the tool
node when `tool_calls` is truthy, and otherwise compares the trimmed text
against the terminal marker, for string content directly and for list
content via `content[0].get("text").strip()` — which raises `IndexError`
on an empty list and `AttributeError` when the first segment has no
`"text"` key (`None.strip()`). -/
def route (messages : List Message) : Except PyExn Transition :=
  match messages.getLast? with
  | none => .error .indexError
  | some last =>
    if last.tool_calls.isEmpty then
      match last.content with
      | .str s => if pyStrip s = "END" then .ok .terminal else .ok .agent
      | .segs [] => .error .indexError
      | .segs (seg :: _) =>
        match seg.text with
        | none => .error .attributeError
        | some t => if pyStrip t = "END" then .ok .terminal else .ok .agent
      | .null => .ok .agent
    else
      .ok .tools

/-- The `AIMessage` appended by the emergency failsafe branch of
`agent_node`. -/
def emergencyMessage : Message :=
  { tool_calls := [], content := .str "Emergency failsafe completed all tasks." }

/-- Embedding of `agent_node` from src/agent.py.  `llm` is the
prompt-plus-model pipeline (`llm_with_prompt.invoke`), called exactly once;
`fallbackMain` is the outcome of the single `direct_solver.main()` call in
the except branch.  Errors are the string payloads of the Python
exceptions.  On LLM success the state is the input messages plus the
result; on LLM failure the fallback runs once, and its own failure is
re-raised (`raise inner_e`). -/
def agent_node (llm : List Message → Except String Message)
    (fallbackMain : Except String Unit)
    (messages : List Message) : Except String (List Message) :=
  match llm messages with
  | .ok result => .ok (messages ++ [result])
  | .error _ =>
    match fallbackMain with
    | .ok _ => .ok (messages ++ [emergencyMessage])
    | .error inner => .error inner

/-- Fatal outcomes of running the compiled graph. -/
inductive RunError
  | recursionLimit
  | agentRaised (e : String)
  | routeRaised (e : PyExn)
deriving DecidableEq

/-- Modelled from the spec: the graph runtime executing the compiled
`StateGraph` under a recursion limit (the iteration ceiling) is library
code outside the repository's sources; per the spec, exceeding the ceiling
is a fatal abort, never a silent return.  The wiring follows src/agent.py:
START goes to the agent node, the tool node feeds back into the agent
node, and the conditional edge from the agent node is decided by `route`.
`tex` is the tool node (`ToolNode(TOOLS)`), which maps the state to the
state extended with tool results. -/
def runLoop (llm : List Message → Except String Message)
    (fallbackMain : Except String Unit)
    (tex : List Message → List Message) :
    Nat → List Message → Except RunError (List Message)
  | 0, _ => .error .recursionLimit
  | fuel + 1, messages =>
    match agent_node llm fallbackMain messages with
    | .error e => .error (.agentRaised e)
    | .ok messages2 =>
      match route messages2 with
      | .error e => .error (.routeRaised e)
      | .ok .tools => runLoop llm fallbackMain tex fuel (tex messages2)
      | .ok .agent => runLoop llm fallbackMain tex fuel messages2
      | .ok .terminal => .ok messages2

/-- Embedding of `run_agent` from src/agent.py: invoke the compiled graph
on the single user message carrying the start URL, under the configured
recursion limit of 300. -/
def run_agent (llm : List Message → Except String Message)
    (fallbackMain : Except String Unit)
    (tex : List Message → List Message) (url : String) :
    Except RunError (List Message) :=
  runLoop llm fallbackMain tex 300 [{ tool_calls := [], content := .str url }]

/-!
The Fallback Solver (src/direct_solver.py).

The network and the Gemini API are oracles inside a `SolverEnv`; everything
else is translated directly.
-/

/-- The identity string hardcoded at the top of src/direct_solver.py. -/
def EMAIL : String := "22f3002310@ds.study.iitm.ac.in"

/-- The shared secret hardcoded at the top of src/direct_solver.py. -/
def SECRET : String := "I_want_to_pass"

/-- An answer computed by `solve_challenge`: the Python function returns
either a string or an int. -/
inductive Answer
  | str (s : String)
  | int (n : Int)
deriving DecidableEq

/-- The JSON payload posted by `submit_answer`. -/
structure SubmitPayload where
  email : String
  secret : String
  url : String
  answer : Answer
deriving DecidableEq

/-- Outcome of the GET on a challenge URL: `fail` covers a non-200 status
and any exception from the request or from `resp.json()` (both break the
loop); `ok` carries `data.get("question", "")`. -/
inductive FetchOutcome
  | fail
  | ok (question : String)

/-- Oracles for the effects performed by the fallback solver.
`submitResp` returns the pair `(result.get("url"), result.get("correct",
False))` of the submission response; a submission exception, which
`submit_answer` turns into the empty dict, is the pair `(none, false)`.
`gemini` is `get_gemini_response` (its internal retry with the legacy
model included): `none` when every attempt fails.  `jsonl` is the list of
lines of the `*.jsonl` files globbed by the logs heuristic, `none` when
reading them raises. -/
structure SolverEnv where
  fetch : String → FetchOutcome
  submitResp : String → SubmitPayload → Option String × Bool
  gemini : String → Option String
  jsonl : Option (List String)

/-- Prompt of the audio heuristic. -/
def audioPrompt (question : String) : String :=
  "Extract the passphrase from this text: " ++ question ++ ". Return ONLY the passphrase."

/-- Prompt of the CSV heuristic (an f-string in the source; doubled braces
are literal braces). -/
def csvPrompt (question : String) : String :=
  "\n        Solve this challenge. You need to return a JSON list of objects.\n        Question: " ++
    question ++
    "\n        \n        If it asks to parse a CSV, assume I have the data. \n        JUST RETURN A VALID JSON LIST EXAMPLE based on the question description.\n        If you can\x27t solve it, return: [\x7b\"id\": 1, \"name\": \"Alpha\", \"joined\": \"2024-01-30\", \"value\": 5\x7d, \x7b\"id\": 2, \"name\": \"Gamma\", \"joined\": \"2024-02-01\", \"value\": 7\x7d, \x7b\"id\": 3, \"name\": \"Beta\", \"joined\": \"2024-01-02\", \"value\": 10\x7d]\n        "

/-- Prompt of the final, catch-all reasoning branch of `solve_challenge`. -/
def defaultPrompt (question : String) : String :=
  "Solve this specific challenge question and return ONLY the exact answer string/number. Question: " ++ question

/-- Byte-count computed by the logs heuristic: sum of `len(line)` over the
lines whose stripped form is nonempty. -/
def totalBytes (lines : List String) : Nat :=
  (lines.filter (fun l => !(pyStrip l).toList.isEmpty)).foldl
    (fun acc l => acc + l.toList.length) 0

/-- Embedding of `solve_challenge` from src/direct_solver.py: a chain of
substring tests on the challenge name, in source order.  The CSV branch
re-creates the Python slip faithfully: when `get_gemini_response` returns
`None`, evaluating the containment test on the result raises a
`TypeError` (caught by the outer handler in `main`).  Every other branch
returns a value; a name matching no heuristic falls through to the
catch-all reasoning prompt and yields the sentinel `"UNKNOWN"` when that
also fails. -/
def solve_challenge (env : SolverEnv)
    (challenge_name question task_url : String) : Except PyExn Answer :=
  if containsSub "uv" challenge_name then
    .ok (.str ("uv http get -H \"Accept: application/json\" " ++ task_url ++
      "/uv.json?email=" ++ EMAIL))
  else if containsSub "git" challenge_name then
    .ok (.str "git add env.sample\ngit commit -m \"chore: keep env sample\"")
  else if containsSub "md" challenge_name then
    .ok (.str "/project2/data-preparation.md")
  else if containsSub "audio" challenge_name then
    match env.gemini (audioPrompt question) with
    | some ans => if ans.toList.isEmpty then .ok (.str "hushed parrot 219") else .ok (.str ans)
    | none => .ok (.str "hushed parrot 219")
  else if containsSub "csv" challenge_name then
    match env.gemini (csvPrompt question) with
    | none => .error .typeError
    | some ans =>
      if containsSub "```json" ans then
        .ok (.str (pyStrip ((pySplit ((pySplit ans "```json").getD 1 "") "```").headD "")))
      else .ok (.str ans)
  else if containsSub "gh-tree" challenge_name then
    .ok (.int 1)
  else if containsSub "logs" challenge_name then
    match env.jsonl with
    | some lines => .ok (.int (totalBytes lines + EMAIL.length % 5 : Nat))
    | none => .ok (.int 335)
  else if containsSub "rate" challenge_name then
    .ok (.int 71)
  else
    match env.gemini (defaultPrompt question) with
    | some ans =>
      if ans.toList.isEmpty then .ok (.str "UNKNOWN")
      else .ok (.str (pyStrip (pyReplace (pyReplace ans "```json" "") "```" "")))
    | none => .ok (.str "UNKNOWN")

/-- Embedding of `submit_answer`: POST the identity/secret/url/answer
payload to `submit_url`; exceptions are already folded into the oracle as
the empty-dict response. -/
def submit_answer (env : SolverEnv) (submit_url : String)
    (payload : SubmitPayload) : Option String × Bool :=
  env.submitResp submit_url payload

/-- Join a list of strings with a separator, as Python's `sep.join`. -/
def joinWith (sep : String) : List String → String
  | [] => ""
  | [x] => x
  | x :: y :: xs => x ++ sep ++ joinWith sep (y :: xs)

/-- The challenge name: `current_challenge_url.split("/")[-1]`. -/
def challengeName (url : String) : String :=
  (pySplit url "/").getLastD ""

/-- The fixed submission endpoint:
`"/".join(start_url.split("/")[:3]) + "/submit"`, i.e. the start URL's
scheme and host plus `/submit`. -/
def submitEndpoint (start_url : String) : String :=
  joinWith "/" ((pySplit start_url "/").take 3) ++ "/submit"

/-- How a run of `main` ends. -/
inductive ExitReason
  | whileExit
  | loopDetected
  | fetchFailed
  | solverError
  | chainComplete
  | outOfFuel
deriving DecidableEq

/-- Observable trace of a run of `main`: the URLs GET is issued for, in
order; the submissions `(endpoint, payload)`, in order; and how the run
ended. -/
structure SolverRun where
  fetched : List String
  submissions : List (String × SubmitPayload)
  exit : ExitReason
deriving DecidableEq

/-- Embedding of the `while` loop of `main` from src/direct_solver.py,
with an explicit fuel argument standing for the number of remaining
iterations (the Python loop is unbounded; `outOfFuel` marks runs the fuel
cut short, and the cycle-guard theorems show adequate fuel is never cut
short).  Per iteration, in source order: the `while` guard on a truthy
URL, the seen-set cycle guard, the GET (non-200 or a request exception
breaks), `solve_challenge` (an uncaught exception reaches the outer
handler and breaks), the POST to the fixed submit endpoint, then follow
`result.get("url")` when it is truthy, else break. -/
def solverLoop (env : SolverEnv) (start_url : String) :
    Nat → String → List String → SolverRun
  | 0, _, _ => ⟨[], [], .outOfFuel⟩
  | fuel + 1, cur, visited =>
    if cur.toList.isEmpty then ⟨[], [], .whileExit⟩
    else if cur ∈ visited then ⟨[], [], .loopDetected⟩
    else
      match env.fetch cur with
      | .fail => ⟨[cur], [], .fetchFailed⟩
      | .ok question =>
        match solve_challenge env (challengeName cur) question cur with
        | .error _ => ⟨[cur], [], .solverError⟩
        | .ok answer =>
          let payload : SubmitPayload := ⟨EMAIL, SECRET, cur, answer⟩
          match (submit_answer env (submitEndpoint start_url) payload).1 with
          | none => ⟨[cur], [(submitEndpoint start_url, payload)], .chainComplete⟩
          | some nextUrl =>
            if nextUrl.toList.isEmpty then
              ⟨[cur], [(submitEndpoint start_url, payload)], .chainComplete⟩
            else
              let rest := solverLoop env start_url fuel nextUrl (cur :: visited)
              ⟨cur :: rest.fetched, (submitEndpoint start_url, payload) :: rest.submissions,
                rest.exit⟩

/-- Embedding of `main(start_url)`: run the loop from the start URL with an
empty seen-set. -/
def solverMain (env : SolverEnv) (start_url : String) (fuel : Nat) : SolverRun :=
  solverLoop env start_url fuel start_url []

/-!
The transcription tool (src/tools/transcription.py).
-/

/-- POSIX `os.path.basename`: the part after the last `/`. -/
def basename (p : String) : String :=
  (pySplit p "/").getLastD ""

/-- The alternate location tried when the given path does not exist:
`os.path.join("LLMFiles", os.path.basename(audio_path))`. -/
def altPath (p : String) : String :=
  "LLMFiles/" ++ basename p

/-- Mime type guessed from the file extension in `transcribe_audio`. -/
def mimeType (p : String) : String :=
  if pyEndsWith p ".wav" then "audio/wav"
  else if pyEndsWith p ".ogg" then "audio/ogg"
  else "audio/mp3"

/-- Embedding of the `transcribe_audio` tool.  `ex` is `os.path.exists`;
`call` covers everything inside the `try` block — reading the file and the
generate-content request on (path, mime type) — with `Except.error e`
standing for a raised exception with message `e`, which the tool converts
into error content.  The function is total: no input makes it raise. -/
def transcribe_audio (ex : String → Bool)
    (call : String → String → Except String String) (audio_path : String) : String :=
  let path? : Option String :=
    if ex audio_path then some audio_path
    else if ex (altPath audio_path) then some (altPath audio_path)
    else none
  match path? with
  | none => "Error: File " ++ audio_path ++ " does not exist."
  | some p =>
    match call p (mimeType p) with
    | .ok text => text
    | .error e => "Error transcribing audio: " ++ e

/-!
Concrete environments used by the witnesses and counterexamples.
-/

/-- Environment for the unknown-challenge scenario: the server always
answers the fetch with a question, the Gemini oracle is down, and the
submission response contains no next URL. -/
def envUnknown : SolverEnv :=
  { fetch := fun _ => .ok "What is the mystery?"
    submitResp := fun _ _ => (none, false)
    gemini := fun _ => none
    jsonl := none }

/-- Environment whose submission responses always point at the same next
URL, so a run revisits it and the cycle guard must fire. -/
def envCycle : SolverEnv :=
  { fetch := fun _ => .ok "q"
    submitResp := fun _ _ => (some "https://h/b", true)
    gemini := fun _ => none
    jsonl := none }

/-- Environment performing exactly one submission (no next URL). -/
def envSubmitOnce : SolverEnv :=
  { fetch := fun _ => .ok "q"
    submitResp := fun _ _ => (none, true)
    gemini := fun _ => none
    jsonl := none }

/-!
Helper lemmas.
-/

/-- Sanity check: `pySplit` behaves as CPython's `str.split`. -/
theorem pySplit_matches_python : pySplit "https://h/p" "/" = ["https:", "", "h", "p"] := by
  decide

/-- Sanity check: `pyStrip` behaves as CPython's `str.strip`. -/
theorem pyStrip_matches_python : pyStrip " END " = "END" := by decide

/-- Sanity check: `containsSub` behaves as CPython's `in` on strings. -/
theorem containsSub_matches_python :
    containsSub "uv" "project2-uv" = true ∧ containsSub "uv" "mystery" = false := by decide

/-- Sanity check: `pyReplace` behaves as CPython's `str.replace`. -/
theorem pyReplace_matches_python : pyReplace "a```json b``` c" "```json" "" = "a b``` c" := by
  decide

/-- A list that starts with `t` still starts with `t` after appending. -/
theorem listStarts_append (a b t : List Char) (h : listStarts a t = true) :
    listStarts (a ++ b) t = true := by
  induction t generalizing a with
  | nil => simp [listStarts]
  | cons x xs ih =>
    cases a with
    | nil => simp [listStarts] at h
    | cons y ys =>
      simp only [listStarts, Bool.and_eq_true, List.cons_append] at h ⊢
      exact ⟨h.1, ih ys h.2⟩

/-- A string that starts with `s` still starts with `s` after appending. -/
theorem pyStartsWith_append (a b s : String) (h : pyStartsWith a s = true) :
    pyStartsWith (a ++ b) s = true := by
  unfold pyStartsWith at h ⊢
  have hd : (a ++ b).toList = a.toList ++ b.toList := by
    simp [String.toList, String.data_append]
  rw [hd]
  exact listStarts_append _ _ _ h

/-!
Claims about the Router.
-/

/-- C2: for a latest message with no tool calls, marker detection yields
the terminal transition both for the plain string content `"END"` and for
the structured-segment content `[{"text": " END "}]`: the (first
segment's) text is compared against the marker after trimming. -/
theorem route_marker_string_and_segments (pre : List Message) :
    route (pre ++ [{ tool_calls := [], content := .str "END" }]) = .ok .terminal ∧
    route (pre ++ [{ tool_calls := [], content := .segs [{ text := some " END " }] }]) =
      .ok .terminal := by
  constructor <;> (unfold route; rw [List.getLast?_concat]; rfl)

/-- C5: whenever the latest message carries at least one ToolCallRequest,
the Router selects the tool-executor transition, whatever the content —
including content equal to the terminal marker. -/
theorem route_tool_calls_priority (pre : List Message) (c : ToolCall)
    (cs : List ToolCall) (content : MsgContent) :
    route (pre ++ [{ tool_calls := c :: cs, content := content }]) = .ok .tools := by
  unfold route; rw [List.getLast?_concat]; rfl

/-- C7: the Router is not total on the permitted message shapes: with no
tool calls, a structured content that is an empty segment list raises
`IndexError`, and a first segment without a `"text"` key raises
`AttributeError`, instead of producing one of the three transitions. -/
theorem route_structured_content_exceptions (pre : List Message) :
    route (pre ++ [{ tool_calls := [], content := .segs [] }]) = .error .indexError ∧
    route (pre ++ [{ tool_calls := [], content := .segs [{ text := none }] }]) =
      .error .attributeError := by
  constructor <;> (unfold route; rw [List.getLast?_concat]; rfl)

/-!
Claims about the Decision Step / Control Loop.
-/

/-- C3: when the reasoning call fails, it is not retried at the Decision
Step layer: `agent_node` performs a one-shot handoff to the Fallback
Solver, and a failure of the Fallback Solver is fatal — its error is
re-raised to the caller, never swallowed. -/
theorem reasoning_failure_one_shot_handoff
    (llm : List Message → Except String Message) (fallbackMain : Except String Unit)
    (messages : List Message) (e : String) (hllm : llm messages = .error e) :
    (∀ inner, fallbackMain = .error inner →
      agent_node llm fallbackMain messages = .error inner) ∧
    (fallbackMain = .ok () →
      agent_node llm fallbackMain messages = .ok (messages ++ [emergencyMessage])) := by
  constructor
  · intro inner hfb
    simp [agent_node, hllm, hfb]
  · intro hfb
    simp [agent_node, hllm, hfb]

/-- Witness for C3 at a concrete failing reasoning call and failing
fallback: the fallback's error propagates. -/
theorem reasoning_failure_one_shot_handoff_witness :
    agent_node (fun _ => .error "quota exhausted") (.error "solver crashed") [] =
      .error "solver crashed" :=
  (reasoning_failure_one_shot_handoff (fun _ => .error "quota exhausted")
    (.error "solver crashed") [] "quota exhausted" rfl).1 "solver crashed" rfl

/-- C9: the Conversation is append-only — every invocation of the
Decision Step node that returns does so with the input message sequence
extended by exactly one new message, the prior messages unchanged and in
their original order. -/
theorem agent_node_appends_exactly_one
    (llm : List Message → Except String Message) (fallbackMain : Except String Unit)
    (messages out : List Message)
    (h : agent_node llm fallbackMain messages = .ok out) :
    ∃ m, out = messages ++ [m] := by
  unfold agent_node at h
  cases hl : llm messages with
  | ok r =>
    rw [hl] at h
    refine ⟨r, ?_⟩
    injection h with h'
    exact h'.symm
  | error e =>
    rw [hl] at h
    cases hf : fallbackMain with
    | ok u =>
      rw [hf] at h
      refine ⟨emergencyMessage, ?_⟩
      injection h with h'
      exact h'.symm
    | error i =>
      rw [hf] at h
      exact absurd h (by simp)

/-- Witness for C9 at a concrete invocation: the returned conversation is
the input plus one message. -/
theorem agent_node_appends_exactly_one_witness :
    ∃ m, [emergencyMessage] = ([] : List Message) ++ [m] :=
  agent_node_appends_exactly_one (fun _ => .error "down") (.ok ()) [] [emergencyMessage] rfl

/-- C4: the iteration ceiling bounds the run: a Decision Step that always
requests a tool call and never emits the marker drives every run into the
fatal `recursionLimit` abort — never a silent success — and in particular
`run_agent`, with its configured ceiling of 300, aborts fatally. -/
theorem iteration_ceiling_fatal_abort
    (llm : List Message → Except String Message) (fallbackMain : Except String Unit)
    (tex : List Message → List Message)
    (h : ∀ ms, ∃ m, llm ms = .ok m ∧ m.tool_calls ≠ []) :
    (∀ fuel messages, runLoop llm fallbackMain tex fuel messages = .error .recursionLimit) ∧
    (∀ url, run_agent llm fallbackMain tex url = .error .recursionLimit) := by
  have main : ∀ fuel messages,
      runLoop llm fallbackMain tex fuel messages = .error .recursionLimit := by
    intro fuel
    induction fuel with
    | zero => intro messages; rfl
    | succ n ih =>
      intro messages
      obtain ⟨m, hm, hnc⟩ := h messages
      have hagent : agent_node llm fallbackMain messages = .ok (messages ++ [m]) := by
        simp [agent_node, hm]
      have hempty : m.tool_calls.isEmpty = false := by
        cases hmc : m.tool_calls with
        | nil => exact absurd hmc hnc
        | cons a l => rfl
      have hroute : route (messages ++ [m]) = .ok .tools := by
        unfold route
        rw [List.getLast?_concat]
        simp [hempty]
      simp only [runLoop, hagent, hroute]
      exact ih (tex (messages ++ [m]))
  exact ⟨main, fun url => main 300 _⟩

/-- Witness for C4: a Decision Step that always requests a no-op tool
causes the fatal ceiling abort on a concrete run. -/
theorem iteration_ceiling_fatal_abort_witness :
    run_agent (fun _ => .ok { tool_calls := [{ name := "noop", args := [] }], content := .null })
      (.ok ()) id "https://h/p" = .error .recursionLimit :=
  (iteration_ceiling_fatal_abort
    (fun _ => .ok { tool_calls := [{ name := "noop", args := [] }], content := .null })
    (.ok ()) id
    (fun _ => ⟨{ tool_calls := [{ name := "noop", args := [] }], content := .null }, rfl,
      by decide⟩)).2 "https://h/p"

/-!
Claims about the transcription tool.
-/

/-- C10: the transcribe-audio tool never raises past the executor — it is
a total function into result strings — and on the failure paths (the file
missing even after the alternate-directory lookup, or the transcription
call raising) it returns a string beginning with `"Error"`, so the loop
always has a result to react to. -/
theorem transcription_errors_contained (ex : String → Bool)
    (call : String → String → Except String String) (p : String) :
    ((ex p = false ∧ ex (altPath p) = false) →
      pyStartsWith (transcribe_audio ex call p) "Error" = true) ∧
    (∀ e, (∀ q m, call q m = .error e) →
      pyStartsWith (transcribe_audio ex call p) "Error" = true) := by
  have hfile : pyStartsWith "Error: File " "Error" = true := by decide
  have hcall : pyStartsWith "Error transcribing audio: " "Error" = true := by decide
  constructor
  · rintro ⟨h1, h2⟩
    simp only [transcribe_audio, h1, h2, Bool.false_eq_true, if_false]
    exact pyStartsWith_append _ _ _ (pyStartsWith_append _ _ _ hfile)
  · intro e he
    unfold transcribe_audio
    cases h1 : ex p with
    | true =>
      simp only [if_true, he p (mimeType p)]
      exact pyStartsWith_append _ _ _ hcall
    | false =>
      cases h2 : ex (altPath p) with
      | true =>
        simp only [Bool.false_eq_true, if_false, if_true, he (altPath p) (mimeType (altPath p))]
        exact pyStartsWith_append _ _ _ hcall
      | false =>
        simp only [Bool.false_eq_true, if_false]
        exact pyStartsWith_append _ _ _ (pyStartsWith_append _ _ _ hfile)

/-- Witness for C10: a missing file produces error content. -/
theorem transcription_errors_contained_witness :
    pyStartsWith
      (transcribe_audio (fun _ => false) (fun _ _ => .error "boom") "a.mp3") "Error" = true :=
  (transcription_errors_contained (fun _ => false) (fun _ _ => .error "boom") "a.mp3").1
    ⟨rfl, rfl⟩

/-!
Claims about the Fallback Solver.
-/

/-- C8: every submission of a run posts to the fixed endpoint derived from
the start URL (its scheme and host plus `/submit`); the target never
depends on the content of the currently fetched challenge page, which is
reflected by the quantification over an arbitrary environment. -/
theorem submit_endpoint_independent_of_page (env : SolverEnv)
    (start_url : String) (fuel : Nat) (cur : String) (visited : List String)
    (ep : String) (p : SubmitPayload)
    (h : (ep, p) ∈ (solverLoop env start_url fuel cur visited).submissions) :
    ep = submitEndpoint start_url := by
  induction fuel generalizing cur visited with
  | zero => simp [solverLoop] at h
  | succ n ih =>
    simp only [solverLoop] at h
    split at h
    · simp at h
    split at h
    · simp at h
    split at h
    · simp at h
    split at h
    · simp at h
    split at h
    · simp at h
      exact h.1
    split at h
    · simp at h
      exact h.1
    · simp only [List.mem_cons] at h
      rcases h with h | h
      · exact congrArg Prod.fst h
      · exact ih _ _ h

/-- Witness for C8: the one submission of a concrete run goes to the
endpoint derived from the start URL. -/
theorem submit_endpoint_independent_of_page_witness :
    "https://h/submit" = submitEndpoint "https://h/p" :=
  submit_endpoint_independent_of_page envSubmitOnce "https://h/p" 2 "https://h/p" []
    "https://h/submit" ⟨EMAIL, SECRET, "https://h/p", .str "UNKNOWN"⟩ (by decide)

/-- Every URL in the fetch trace of a run is fresh: it was not in the
seen-set the run started from, and the trace has no duplicates. -/
theorem solverLoop_fetched_fresh (env : SolverEnv) (start_url : String) :
    ∀ (fuel : Nat) (cur : String) (visited : List String),
      (solverLoop env start_url fuel cur visited).fetched.Nodup ∧
      ∀ u ∈ (solverLoop env start_url fuel cur visited).fetched, u ∉ visited := by
  intro fuel
  induction fuel with
  | zero =>
    intro cur visited
    exact ⟨List.nodup_nil, by simp [solverLoop]⟩
  | succ n ih =>
    intro cur visited
    simp only [solverLoop]
    split
    · exact ⟨List.nodup_nil, by simp⟩
    split
    · exact ⟨List.nodup_nil, by simp⟩
    next hvis =>
    split
    · exact ⟨List.nodup_singleton cur, by simpa using hvis⟩
    split
    · exact ⟨List.nodup_singleton cur, by simpa using hvis⟩
    split
    · exact ⟨List.nodup_singleton cur, by simpa using hvis⟩
    split
    · exact ⟨List.nodup_singleton cur, by simpa using hvis⟩
    next nextUrl hsub hne =>
      obtain ⟨hnd, hfresh⟩ := ih nextUrl (cur :: visited)
      constructor
      · refine List.nodup_cons.mpr ⟨fun hmem => ?_, hnd⟩
        exact hfresh cur hmem (List.mem_cons_self cur visited)
      · intro u hu
        rcases List.mem_cons.mp hu with rfl | hu'
        · exact hvis
        · exact fun hv => hfresh u hu' (List.mem_cons_of_mem cur hv)

/-- When every next URL the submission oracle can produce lies in a finite
set `S`, fuel exceeding the number of not-yet-visited URLs of `S` is never
exhausted: the seen-set grows strictly at every continuing iteration. -/
theorem solverLoop_fuel_adequate (env : SolverEnv) (start_url : String)
    (S : Finset String)
    (hS : ∀ ep p nxt, (env.submitResp ep p).1 = some nxt → nxt ∈ S) :
    ∀ (fuel : Nat) (cur : String) (visited : List String),
      cur ∈ S → (S \ visited.toFinset).card < fuel →
      (solverLoop env start_url fuel cur visited).exit ≠ .outOfFuel := by
  intro fuel
  induction fuel with
  | zero =>
    intro cur visited _ hlt
    exact absurd hlt (Nat.not_lt_zero _)
  | succ n ih =>
    intro cur visited hcur hlt
    simp only [solverLoop]
    split
    · simp
    split
    · simp
    next hvis =>
    split
    · simp
    split
    · simp
    split
    · simp
    next nextUrl hsub =>
      split
      · simp
      next hne =>
        have hnxt : nextUrl ∈ S := hS _ _ _ hsub
        have hcv : cur ∈ S \ visited.toFinset :=
          Finset.mem_sdiff.mpr ⟨hcur, by simpa using hvis⟩
        have heq : S \ (cur :: visited).toFinset = (S \ visited.toFinset).erase cur := by
          rw [List.toFinset_cons, Finset.sdiff_insert]
        have hcard : (S \ (cur :: visited).toFinset).card < n := by
          rw [heq]
          have := Finset.card_erase_lt_of_mem hcv
          omega
        exact ih nextUrl (cur :: visited) hnxt hcard

/-- C6: the cycle guard of the Fallback Solver.  In every run: the fetch
trace has no duplicate URL (each URL is fetched at most once per run) and
contains nothing from the initial seen-set; entering an iteration on an
already-visited (truthy) URL halts immediately with `loopDetected`,
fetching nothing; and when the submission responses can only point into a
finite URL set `S`, sufficient fuel is never exhausted — the loop cannot
run forever. -/
theorem fallback_cycle_guard (env : SolverEnv) (start_url : String)
    (fuel : Nat) (cur : String) (visited : List String) :
    (solverLoop env start_url fuel cur visited).fetched.Nodup ∧
    (∀ u ∈ (solverLoop env start_url fuel cur visited).fetched, u ∉ visited) ∧
    (cur.toList.isEmpty = false → cur ∈ visited → 0 < fuel →
      solverLoop env start_url fuel cur visited = ⟨[], [], .loopDetected⟩) ∧
    (∀ S : Finset String,
      (∀ ep p nxt, (env.submitResp ep p).1 = some nxt → nxt ∈ S) →
      cur ∈ S → (S \ visited.toFinset).card < fuel →
      (solverLoop env start_url fuel cur visited).exit ≠ .outOfFuel) := by
  refine ⟨(solverLoop_fetched_fresh env start_url fuel cur visited).1,
    (solverLoop_fetched_fresh env start_url fuel cur visited).2, ?_, ?_⟩
  · intro hne hvis hpos
    match fuel, hpos with
    | n + 1, _ =>
      have hne2 : ¬cur.data = [] := by simpa using hne
      simp [solverLoop, hne2, hvis]
  · intro S hS hcur hlt
    exact solverLoop_fuel_adequate env start_url S hS fuel cur visited hcur hlt

/-- Witness for C6: with a server that always points back at the same
URL, a concrete run ends without exhausting its fuel (it halts through
the cycle guard). -/
theorem fallback_cycle_guard_witness :
    (solverLoop envCycle "https://h/a" 3 "https://h/a" []).exit ≠ .outOfFuel :=
  (fallback_cycle_guard envCycle "https://h/a" 3 "https://h/a" []).2.2.2
    {"https://h/a", "https://h/b"}
    (by
      intro ep p nxt h
      simp only [envCycle] at h
      obtain rfl : "https://h/b" = nxt := Option.some.inj h
      decide)
    (by decide) (by decide)

/-- Counterexample to C1 as stated: on the concrete challenge URL
`https://h/mystery`, whose name `mystery` matches no heuristic of the
dispatch table, and with the reasoning oracle down, the Fallback Solver
does not halt: it computes the guessed sentinel answer `"UNKNOWN"`,
submits it, and the run proceeds to the normal end of the chain. -/
theorem unknown_challenge_submits_counterexample :
    (solverMain envUnknown "https://h/mystery" 2).submissions =
      [("https://h/submit",
        ⟨EMAIL, SECRET, "https://h/mystery", .str "UNKNOWN"⟩)] ∧
    (solverMain envUnknown "https://h/mystery" 2).exit = .chainComplete ∧
    solve_challenge envUnknown "mystery" "What is the mystery?" "https://h/mystery" =
      .ok (.str "UNKNOWN") :=
  ⟨by decide, by decide, rfl⟩

/-- C1 (amended): a fetched challenge whose name matches no heuristic in
the dispatch table is not a hard stop — `solve_challenge` falls through to
the catch-all reasoning query, and when that query fails it returns the
explicit sentinel answer `"UNKNOWN"`, which the loop then submits like any
other answer. -/
theorem unknown_challenge_falls_through (env : SolverEnv)
    (name question task_url : String)
    (h1 : containsSub "uv" name = false) (h2 : containsSub "git" name = false)
    (h3 : containsSub "md" name = false) (h4 : containsSub "audio" name = false)
    (h5 : containsSub "csv" name = false) (h6 : containsSub "gh-tree" name = false)
    (h7 : containsSub "logs" name = false) (h8 : containsSub "rate" name = false)
    (hg : env.gemini (defaultPrompt question) = none) :
    solve_challenge env name question task_url = .ok (.str "UNKNOWN") := by
  simp [solve_challenge, h1, h2, h3, h4, h5, h6, h7, h8, hg]

/-- Witness for the amended C1 at the concrete unknown name `mystery`. -/
theorem unknown_challenge_falls_through_witness :
    solve_challenge envUnknown "mystery" "q" "https://h/mystery" = .ok (.str "UNKNOWN") :=
  unknown_challenge_falls_through envUnknown "mystery" "q" "https://h/mystery"
    (by decide) (by decide) (by decide) (by decide) (by decide) (by decide)
    (by decide) (by decide) rfl
